import Mathlib

/-!
# Verification of the Orbitport SDK random-value resolution pipeline

Shallow embedding of the TypeScript sources of `orbitport-sdk-ts`:

* `src/utils/errors.ts`     — error codes and the `OrbitportSDKError` shape
* `src/utils/validation.ts` — `validateCTRNGRequest`, `sanitizeCTRNGRequest`
* `src/services/beacon.ts`  — `BeaconService`: `isValidPath`, `readViaGateway`,
  `readViaApi`, `parseBeacon`, `compareBeaconData`, `getBeacon` (with retry),
  `getBeaconWithBlockTraversal`
* `src/services/ctrng.ts`   — `CTRNGService.random`, `_getFromIPFSBeacon`

Conventions of the embedding:

* Machine numbers that are validated to be non-negative integers are `Nat`;
  JS `number` values that may be fractional are `Rat`; beacon `sequence`
  values are `Int` (per the `BeaconData` interface).
* Effectful calls (HTTP fetches, the beacon resolver) are passed in as
  explicit outcome oracles; functions additionally return the number of
  such calls they issued so that "zero I/O before failure" claims are
  statable.
* Fallible code returns `Except`.  A thrown `OrbitportSDKError` is
  `JSException.sdk`; a JavaScript runtime `TypeError` (for example a
  property access on `null`) is `JSException.typeError`.
-/

/-- Error codes of `ERROR_CODES` in `src/utils/errors.ts`.  `INVALID_REQUEST`
is referenced by `ctrng.ts` and `beacon.ts` and is included here as a code of
its own. -/
inductive ErrorCode where
  | AUTH_FAILED
  | INVALID_CREDENTIALS
  | TOKEN_EXPIRED
  | TOKEN_REFRESH_FAILED
  | INVALID_CONFIG
  | MISSING_CLIENT_ID
  | MISSING_CLIENT_SECRET
  | NETWORK_ERROR
  | TIMEOUT
  | CONNECTION_FAILED
  | API_ERROR
  | RATE_LIMITED
  | SERVICE_UNAVAILABLE
  | INVALID_RESPONSE
  | STORAGE_ERROR
  | STORAGE_UNAVAILABLE
  | VALIDATION_ERROR
  | INVALID_PARAMETERS
  | CTRNG_ERROR
  | PROVIDER_UNAVAILABLE
  | FALLBACK_FAILED
  | UNKNOWN_ERROR
  | INVALID_REQUEST
deriving DecidableEq, Repr

/-- The `OrbitportSDKError` data (constructor `(message, code, status?,
details?)`; the optional `status`/`details` fields are never inspected by the
pipeline and are omitted). -/
structure OrbitportSDKError where
  message : String
  code : ErrorCode
deriving DecidableEq, Repr

/-- A thrown JavaScript exception: either an `OrbitportSDKError` or a runtime
`TypeError` (for example reading a property of `null`). -/
inductive JSException where
  | sdk (e : OrbitportSDKError)
  | typeError (message : String)
deriving DecidableEq, Repr

/-- `isRetryableError` of `src/utils/errors.ts`. -/
def isRetryableError (e : OrbitportSDKError) : Bool :=
  e.code = ErrorCode.NETWORK_ERROR ∨
  e.code = ErrorCode.TIMEOUT ∨
  e.code = ErrorCode.CONNECTION_FAILED ∨
  e.code = ErrorCode.SERVICE_UNAVAILABLE ∨
  e.code = ErrorCode.RATE_LIMITED ∨
  e.code = ErrorCode.PROVIDER_UNAVAILABLE

/-- JS truthiness of an optional string (`undefined` and `""` are falsy). -/
def jsTruthyStr : Option String → Bool
  | none => false
  | some s => s ≠ ""

/-- JS `String.prototype.startsWith` (and the TypeScript `.startsWith`
calls of the source), as a character-list prefix test so that it evaluates
inside the kernel. -/
def jsStartsWith (s pre : String) : Bool :=
  pre.data.isPrefixOf s.data


/-- The `BeaconData` interface of `src/types/index.ts`:
`{ previous?: string; sequence: number; timestamp: string; ctrng: number[] }`.
`sequence` and the `ctrng` entries are integers per the data model. -/
structure BeaconData where
  previous : Option String
  sequence : Int
  timestamp : String
  ctrng : List Int
deriving DecidableEq, Repr

/-- The `differences` member of `BeaconComparison`: for each of `sequence`
and `previous`, the `(gateway, api)` pair when the two sides differ. -/
structure BeaconDifferences where
  sequence : Option (Int × Int)
  previous : Option (String × String)
deriving DecidableEq, Repr

/-- The `BeaconComparison` interface.  The source field `match` is a reserved
word in Lean and is embedded as `match_`. -/
structure BeaconComparison where
  gateway : Option BeaconData
  api : Option BeaconData
  match_ : Bool
  differences : Option BeaconDifferences
deriving DecidableEq, Repr

/-- `BeaconService.compareBeaconData(gateway, api)`:

```
const match = gateway && api && gateway.sequence === api.sequence &&
              gateway.previous === api.previous;
const differences = gateway && api && !match ? { sequence: ...,
              previous: ... } : undefined;
return { gateway, api, match: !!match, differences };
```

`===` on the optional `previous` strings is `Option String` equality
(`undefined === undefined` is `true`). -/
def compareBeaconData (gateway api : Option BeaconData) : BeaconComparison :=
  let m : Bool :=
    match gateway, api with
    | some g, some a => g.sequence = a.sequence ∧ g.previous = a.previous
    | _, _ => false
  let differences : Option BeaconDifferences :=
    match gateway, api with
    | some g, some a =>
      if m then none
      else some
        { sequence :=
            if g.sequence ≠ a.sequence then some (g.sequence, a.sequence)
            else none
          previous :=
            if g.previous ≠ a.previous then
              some (g.previous.getD "", a.previous.getD "")
            else none }
    | _, _ => none
  { gateway := gateway, api := api, match_ := m, differences := differences }

/-- The payload of a `ServiceResult<BeaconData | BeaconComparison>`:
either a single beacon record (has a `sequence` own-property) or a
comparison record (has `match`/`gateway` own-properties). -/
inductive BeaconOut where
  | single (b : BeaconData)
  | comparison (c : BeaconComparison)
deriving DecidableEq, Repr

/-! ## JSON values and `parseBeacon` -/

/-- A parsed JSON value (the result of `JSON.parse`).  JSON numbers are
modelled as integers; no claim depends on fractional JSON payload numbers.
Object fields are modelled with duplicate keys already collapsed (as
`JSON.parse` does, keeping the last occurrence). -/
inductive Json where
  | null
  | bool (b : Bool)
  | num (n : Int)
  | str (s : String)
  | arr (elems : List Json)
  | obj (fields : List (String × Json))

/-- Property lookup `j[k]` on a JSON value; `none` is JS `undefined`
(non-objects and arrays have no named own-properties coming from JSON). -/
def Json.get : Json → String → Option Json
  | .obj fields, k => fields.lookup k
  | _, _ => none

/-- `x && typeof x === "object"` for a JSON value: JSON objects and arrays
pass, `null`/booleans/numbers/strings do not (objects and arrays are always
truthy, and every other JSON value either is falsy or has a non-object
`typeof`). -/
def Json.isObjectLike : Json → Bool
  | .obj _ => true
  | .arr _ => true
  | _ => false

/-- JS truthiness of an optional JSON value. -/
def jsTruthyJson : Option Json → Bool
  | none => false
  | some .null => false
  | some (.bool b) => b
  | some (.num n) => n ≠ 0
  | some (.str s) => s ≠ ""
  | some (.arr _) => true
  | some (.obj _) => true

mutual
/-- The JS `String(x)` conversion on a JSON value (arrays join with `","`,
plain objects render as `"[object Object]"`). -/
def Json.jsStr : Json → String
  | .null => "null"
  | .bool true => "true"
  | .bool false => "false"
  | .num n => toString n
  | .str s => s
  | .arr elems => String.intercalate "," (jsStringElems elems)
  | .obj _ => "[object Object]"

/-- Array elements under `Array.prototype.toString`: `null` renders as the
empty string, everything else via `Json.jsStr`. -/
def jsStringElems : List Json → List String
  | [] => []
  | .null :: rest => "" :: jsStringElems rest
  | .bool b :: rest => Json.jsStr (.bool b) :: jsStringElems rest
  | .num n :: rest => Json.jsStr (.num n) :: jsStringElems rest
  | .str s :: rest => Json.jsStr (.str s) :: jsStringElems rest
  | .arr elems :: rest => Json.jsStr (.arr elems) :: jsStringElems rest
  | .obj fields :: rest => Json.jsStr (.obj fields) :: jsStringElems rest
end

/-- The JS `String(x)` conversion on an optional JSON value
(`String(undefined) = "undefined"`). -/
def jsString : Option Json → String
  | none => "undefined"
  | some j => j.jsStr

/-- The record built by `BeaconService.parseBeacon`.  The source reads
`obj.previous` and `obj.data.{sequence, timestamp, ctrng}` without checking
that `sequence`/`timestamp` are present, so those fields are raw optional
JSON values here (`none` is JS `undefined`). -/
structure ParsedBeacon where
  previous : Option Json
  sequence : Option Json
  timestamp : String
  ctrng : List Json

/-- `BeaconService.parseBeacon(jsonText)`.

`jsonParse` models `JSON.parse` (`none` = the input is not JSON, in which
case `JSON.parse` throws a `SyntaxError`); `toISO t` models
`new Date(t * 1000).toISOString()` for an epoch-seconds value `t`.

```
const obj = JSON.parse(jsonText);
if (!obj || typeof obj !== "object" || !obj.data ||
    typeof obj.data !== "object") throw new Error("Unexpected beacon JSON structure");
const { previous } = obj;
const { sequence, timestamp, ctrng } = obj.data;
const iso = typeof timestamp === "number" && timestamp < 1e12
  ? new Date(timestamp * 1000).toISOString() : String(timestamp);
return { previous, sequence, timestamp: iso,
         ctrng: Array.isArray(ctrng) ? ctrng : [] };
```
-/
def parseBeacon (jsonParse : String → Option Json) (toISO : Int → String)
    (jsonText : String) : Except String ParsedBeacon :=
  match jsonParse jsonText with
  | none => .error "Unexpected token in JSON"
  | some obj =>
    if obj.isObjectLike &&
        (match obj.get "data" with
         | some d => d.isObjectLike
         | none => false) then
      let data := (obj.get "data").getD .null
      let timestamp := data.get "timestamp"
      let iso :=
        match timestamp with
        | some (.num t) => if t < 10 ^ 12 then toISO t else jsString timestamp
        | _ => jsString timestamp
      .ok { previous := obj.get "previous"
            sequence := data.get "sequence"
            timestamp := iso
            ctrng :=
              match data.get "ctrng" with
              | some (.arr elems) => elems
              | _ => [] }
    else
      .error "Unexpected beacon JSON structure"

/-! ## Transport fetchers (`readViaGateway`, `readViaApi`) -/

/-- The `IPFSSource` interface: one transport outcome,
`{ source, text?, error? }`. -/
structure IPFSSource where
  source : String
  text : Option String
  error : Option String
deriving DecidableEq, Repr

/-- The outcome the network would deliver for one HTTP call, together with
the time (ms) until the response arrives.  When the call was issued with an
`AbortController` signal wired to `setTimeout(timeoutMs)`, a duration
exceeding the timeout means the abort fires first and the call rejects with
an `AbortError`; a call issued without a signal delivers its outcome
regardless of the duration. -/
inductive HTTPOutcome where
  | success (duration : Nat) (body : String)
  | httpError (duration : Nat) (status : Nat)
  | failure (duration : Nat) (message : String)
deriving DecidableEq, Repr

/-- The message carried by a fetch `AbortError`. -/
def abortErrorMessage : String := "The operation was aborted"

/-- `BeaconService.readViaGateway(path, _timeout)`.  The fetch is bound to an
`AbortController` aborted after `_timeout` ms (`duration` counts until the
response headers arrive; the timer is cleared once `fetch` resolves).  Every
failure is captured into the returned `IPFSSource`; nothing is thrown. -/
def readViaGateway (gateway : String) (_timeout : Nat)
    (outcome : HTTPOutcome) : IPFSSource :=
  let sourceLabel := "gateway:" ++ gateway
  match outcome with
  | .success d body =>
    if d > _timeout then
      { source := sourceLabel, text := none, error := some abortErrorMessage }
    else
      { source := sourceLabel, text := some body, error := none }
  | .httpError d status =>
    if d > _timeout then
      { source := sourceLabel, text := none, error := some abortErrorMessage }
    else
      { source := sourceLabel, text := none
        error := some ("Gateway " ++ gateway ++ " returned " ++ toString status) }
  | .failure d message =>
    if d > _timeout then
      { source := sourceLabel, text := none, error := some abortErrorMessage }
    else
      { source := sourceLabel, text := none, error := some message }

/-- The outcome of the `/api/v0/name/resolve` call inside `readViaApi`:
on HTTP success the `Path` member of the JSON body (`none` when absent;
a falsy `Path` triggers the "no path returned" error). -/
inductive ResolveOutcome where
  | success (duration : Nat) (pathField : Option String)
  | httpError (duration : Nat) (status : Nat)
  | failure (duration : Nat) (message : String)
deriving DecidableEq, Repr

/-- `BeaconService.readViaApi(path, _timeout)`.  Note that the `_timeout`
parameter is never used: neither the name-resolve call nor the cat call is
given an abort signal, so the supplied durations never cause an abort.  For
an `/ipns/` path the name is first resolved (`resolveOutcome`), then the
content is fetched (`catOutcome`); for other paths only the cat call runs.
Every failure is captured into the returned `IPFSSource`. -/
def readViaApi (apiUrl : Option String) (_timeout : Nat) (path : String)
    (resolveOutcome : ResolveOutcome) (catOutcome : HTTPOutcome) : IPFSSource :=
  let sourceLabel := "api:" ++ (match apiUrl with | some u => u | none => "undefined")
  if ¬ jsTruthyStr apiUrl then
    { source := sourceLabel, text := none, error := some "IPFS API URL not configured" }
  else
    let step : Except String String := do
      let _effective ←
        if jsStartsWith path "/ipns/" then
          match resolveOutcome with
          | .success _ pathField =>
            if jsTruthyStr pathField then
              .ok (pathField.getD "").trim
            else
              .error "API resolve failed: no path returned"
          | .httpError _ status =>
            .error ("API resolve failed: " ++ toString status)
          | .failure _ message => .error message
        else
          .ok path
      match catOutcome with
      | .success _ body => .ok body
      | .httpError _ status => .error ("API cat failed: " ++ toString status)
      | .failure _ message => .error message
    match step with
    | .ok text => { source := sourceLabel, text := some text, error := none }
    | .error m => { source := sourceLabel, text := none, error := some m }

/-! ## The beacon resolver (`BeaconService.getBeacon`) -/

/-- `BeaconService.isValidPath(path)`. -/
def isValidPath (path : String) : Bool :=
  jsStartsWith path "/ipns/" || jsStartsWith path "/ipfs/"

/-- JS `String.prototype.includes` (substring test): `pat` occurs in `s`
iff splitting `s` on `pat` yields more than one piece. -/
def jsIncludes (s pat : String) : Bool :=
  (s.splitOn pat).length ≥ 2

/-- One resolver attempt: the closure passed to `withRetry` inside
`BeaconService.getBeacon` (after `readFromSources` returned
`sources_data`).  `parse` abstracts `this.parseBeacon` (applied to a raw
body, yielding a beacon record or a thrown parse error; the concrete
JSON-level model is `parseBeacon` above — the attempt logic only inspects
whether a body parses).

```
const errors = sources_data.filter((s) => s.error);
if (errors.length === sources_data.length)
  throw new OrbitportSDKError(`All sources failed: ${errors.map((e) => e.error).join(", ")}`,
                              ERROR_CODES.NETWORK_ERROR);
const parsedData = [];
for (const source of sources_data)
  if (source.text) { try { parsedData.push({source: source.source,
    data: this.parseBeacon(source.text)}); } catch {} }
if (parsedData.length === 0)
  throw new OrbitportSDKError("No valid beacon data found from any source",
                              ERROR_CODES.INVALID_RESPONSE);
if (enableComparison && parsedData.length >= 2) {
  const gateway = parsedData.find((p) => p.source.includes("gateway"))?.data || null;
  const api = parsedData.find((p) => p.source.includes("api"))?.data || null;
  return this.compareBeaconData(gateway, api);
} else return parsedData[0].data;
```
-/
def getBeaconAttempt (parse : String → Except String BeaconData)
    (enableComparison : Bool) (sources_data : List IPFSSource) :
    Except OrbitportSDKError BeaconOut :=
  let errors := sources_data.filter (fun s => jsTruthyStr s.error)
  if errors.length = sources_data.length then
    .error
      { message := "All sources failed: " ++
          String.intercalate ", " (errors.map (fun e => e.error.getD ""))
        code := ErrorCode.NETWORK_ERROR }
  else
    let parsedData : List (String × BeaconData) :=
      sources_data.filterMap (fun s =>
        if jsTruthyStr s.text then
          match parse (s.text.getD "") with
          | .ok d => some (s.source, d)
          | .error _ => none
        else none)
    match parsedData with
    | [] =>
      .error
        { message := "No valid beacon data found from any source"
          code := ErrorCode.INVALID_RESPONSE }
    | p :: rest =>
      if enableComparison && (p :: rest).length ≥ 2 then
        let gateway :=
          ((p :: rest).find? (fun q => jsIncludes q.1 "gateway")).map Prod.snd
        let api :=
          ((p :: rest).find? (fun q => jsIncludes q.1 "api")).map Prod.snd
        .ok (.comparison (compareBeaconData gateway api))
      else
        .ok (.single p.2)

/-- The retry loop of `withRetry` (from `src/utils/retry.ts`) as it runs
inside `getBeacon`, with transport-call counting.

`fetchOutcome attempt sourceName` is the network outcome of the transport
call for `sourceName` during attempt number `attempt`; each executed attempt
issues one transport call per entry of `sourceList` (that is what
`readFromSources` does).  `remaining` is the number of attempts still
allowed (`maxAttempts - attempt + 1`); per `withRetry`, a failed attempt is
retried only while the error is retryable and attempts remain.  The
`remaining = 0` entry case models `maxAttempts = 0`, where the source loop
never runs and the trailing `throw lastError!` throws `undefined`
(unreachable in practice: `options.retries || 3` is never `0`). -/
def getBeaconRetryLoop (parse : String → Except String BeaconData)
    (enableComparison : Bool) (sourceList : List String)
    (fetchOutcome : Nat → String → IPFSSource) :
    Nat → Nat → Nat → Except JSException BeaconOut × Nat
  | 0, _, count => (.error (.typeError "lastError is undefined"), count)
  | remaining + 1, attempt, count =>
    let sources_data := sourceList.map (fetchOutcome attempt)
    let count := count + sourceList.length
    match getBeaconAttempt parse enableComparison sources_data with
    | .ok x => (.ok x, count)
    | .error e =>
      if remaining = 0 ∨ ¬ isRetryableError e then (.error (.sdk e), count)
      else getBeaconRetryLoop parse enableComparison sourceList fetchOutcome
        remaining (attempt + 1) count

/-- `BeaconService.getBeacon(request, options)` with transport-call
counting: the returned `Nat` is the number of transport calls issued.

```
const { path, sources = ["both"], enableComparison = false } = request;
const requestOptions = { ..., retries: options.retries || 3 };
if (!this.isValidPath(path))
  throw new OrbitportSDKError("Invalid path: must start with /ipns/ or /ipfs/",
                              ERROR_CODES.INVALID_RESPONSE);
const result = await withRetry(async () => {
  const sourceList = sources.includes("both") ? ["gateway", "api"] : sources;
  const sources_data = await this.readFromSources(path, sourceList, ...);
  ... // getBeaconAttempt above
}, { ...RETRY_STRATEGIES.standard, maxAttempts: requestOptions.retries }, ...);
```

`retries` arrives already defaulted (`options.retries || 3`).  The
`ServiceResult` metadata wrapper (a timestamp) is dropped. -/
def getBeacon (parse : String → Except String BeaconData) (path : String)
    (sources : List String) (enableComparison : Bool) (retries : Nat)
    (fetchOutcome : Nat → String → IPFSSource) :
    Except JSException BeaconOut × Nat :=
  if ¬ isValidPath path then
    (.error (.sdk
      { message := "Invalid path: must start with /ipns/ or /ipfs/"
        code := ErrorCode.INVALID_RESPONSE }), 0)
  else
    let sourceList := if sources.contains "both" then ["gateway", "api"] else sources
    getBeaconRetryLoop parse enableComparison sourceList fetchOutcome retries 1 0

/-! ## Chain traversal (`BeaconService.getBeaconWithBlockTraversal`) -/

/-- The `block` parameter of `getBeaconWithBlockTraversal`:
`number | "INF"`.  The numeric case is a `Rat`: the TypeScript type admits
any `number`, and this layer does not check integrality. -/
inductive BlockParam where
  | inf
  | num (q : Rat)
deriving DecidableEq, Repr

/-- Extraction of a single authoritative record from a resolver result, as
`getBeaconWithBlockTraversal` does it:

```
if ("sequence" in data) current = data;
else if ("gateway" in data) current = data.gateway || data.api!;
else throw ...INVALID_RESPONSE...
```

Every `BeaconOut` value has a `sequence` or a `gateway` own-property, so the
final `INVALID_RESPONSE` branch is unreachable here; `none` is the case
where both `gateway` and `api` are `null` and the subsequent `.sequence`
access would raise a `TypeError`. -/
def extractBeacon : BeaconOut → Option BeaconData
  | .single b => some b
  | .comparison c => c.gateway <|> c.api

/-- The backward-traversal `while` loop of `getBeaconWithBlockTraversal`:

```
while (traversedBlocks < maxTraversal && targetBeacon.previous) {
  const previousResult = await this.getBeacon({...request, path: targetBeacon.previous}, options);
  ... extract previousBeacon ...
  targetBeacon = previousBeacon; traversedBlocks++;
  if (targetBeacon.sequence === block) break;
  if (targetBeacon.sequence < block)
    throw new OrbitportSDKError(`Block ${block} not found in chain. Last available block: ${...}`,
                                ERROR_CODES.INVALID_REQUEST);
}
if (targetBeacon.sequence !== block)
  throw new OrbitportSDKError(`Failed to reach block ${block}. Current block: ${...}`,
                              ERROR_CODES.INVALID_REQUEST);
```

`resolve` abstracts `this.getBeacon` keyed by path; the returned `Nat`
counts resolver calls.  `fuel` only bounds the recursion: it is initialised
to `⌈maxTraversal⌉` so that `fuel = 0` exactly when the loop guard
`traversedBlocks < maxTraversal` is false (for a natural count `t`,
`t < maxTraversal ↔ t < ⌈maxTraversal⌉`), and the loop guard itself is kept
as the JS comparison. -/
def traversalLoop (resolve : String → Except JSException BeaconOut)
    (block maxTraversal : Rat) :
    Nat → BeaconData → Nat → Nat → Except JSException BeaconData × Nat
  | 0, targetBeacon, _, count =>
    if targetBeacon.sequence = block then (.ok targetBeacon, count)
    else
      (.error (.sdk
        { message := "Failed to reach block " ++ toString block ++
            ". Current block: " ++ toString targetBeacon.sequence
          code := ErrorCode.INVALID_REQUEST }), count)
  | fuel + 1, targetBeacon, traversedBlocks, count =>
    if (traversedBlocks : Rat) < maxTraversal ∧ jsTruthyStr targetBeacon.previous then
      let previousPath := targetBeacon.previous.getD ""
      match resolve previousPath with
      | .error e => (.error e, count + 1)
      | .ok previousResult =>
        match extractBeacon previousResult with
        | none =>
          (.error (.typeError "Cannot read properties of null"), count + 1)
        | some previousBeacon =>
          if previousBeacon.sequence = block then (.ok previousBeacon, count + 1)
          else if previousBeacon.sequence < block then
            (.error (.sdk
              { message := "Block " ++ toString block ++
                  " not found in chain. Last available block: " ++
                  toString previousBeacon.sequence
                code := ErrorCode.INVALID_REQUEST }), count + 1)
          else
            traversalLoop resolve block maxTraversal fuel previousBeacon
              (traversedBlocks + 1) (count + 1)
    else
      if targetBeacon.sequence = block then (.ok targetBeacon, count)
      else
        (.error (.sdk
          { message := "Failed to reach block " ++ toString block ++
              ". Current block: " ++ toString targetBeacon.sequence
            code := ErrorCode.INVALID_REQUEST }), count)

/-- `BeaconService.getBeaconWithBlockTraversal(request, options)`.

`resolve` abstracts `this.getBeacon` for a given path (the other request
fields — `sources`, `enableComparison`, `timeout` — are carried unchanged by
the source and folded into the oracle); the returned `Nat` counts resolver
calls.

```
const { block = "INF" } = request;
if (block === "INF") return this.getBeacon(request, options);
if (typeof block !== "number" || block < 0)
  throw new OrbitportSDKError("Block number must be a non-negative integer",
                              ERROR_CODES.INVALID_REQUEST);
const latestResult = await this.getBeacon(request, options);
... extract currentBeacon ...
if (block > currentSequence) throw ...INVALID_REQUEST...;
if (block === currentSequence) return latestResult;
... traversal loop ...
if ("sequence" in latestResult.data) return { data: targetBeacon, ... };
else return { data: { gateway: targetBeacon, api: null, match: true }, ... };
```

Non-numeric, non-`"INF"` block values (outside the declared TypeScript
type) throw the same `INVALID_REQUEST` error as negatives and are not
representable here. -/
def getBeaconWithBlockTraversal (block : Option BlockParam) (path : String)
    (resolve : String → Except JSException BeaconOut) :
    Except JSException BeaconOut × Nat :=
  match block.getD .inf with
  | .inf =>
    match resolve path with
    | .ok latest => (.ok latest, 1)
    | .error e => (.error e, 1)
  | .num q =>
    if q < 0 then
      (.error (.sdk
        { message := "Block number must be a non-negative integer"
          code := ErrorCode.INVALID_REQUEST }), 0)
    else
      match resolve path with
      | .error e => (.error e, 1)
      | .ok latestResult =>
        match extractBeacon latestResult with
        | none => (.error (.typeError "Cannot read properties of null"), 1)
        | some currentBeacon =>
          let currentSequence := currentBeacon.sequence
          if q > (currentSequence : Rat) then
            (.error (.sdk
              { message := "Requested block " ++ toString q ++
                  " is greater than current block " ++ toString currentSequence
                code := ErrorCode.INVALID_REQUEST }), 1)
          else if q = (currentSequence : Rat) then
            (.ok latestResult, 1)
          else
            let maxTraversal : Rat := (currentSequence : Rat) - q
            match traversalLoop resolve q maxTraversal maxTraversal.ceil.toNat
                currentBeacon 0 1 with
            | (.error e, n) => (.error e, n)
            | (.ok targetBeacon, n) =>
              match latestResult with
              | .single _ => (.ok (.single targetBeacon), n)
              | .comparison _ =>
                (.ok (.comparison
                  { gateway := some targetBeacon, api := none
                    match_ := true, differences := none }), n)

/-! ## The cTRNG service (`CTRNGService`) -/

/-- The optional `signature` envelope of a `CTRNGResponse`. -/
structure CTRNGSignature where
  value : String
  pk : String
  algo : Option String
deriving DecidableEq, Repr

/-- The `CTRNGResponse` interface (the `RandomSelection` of the spec). -/
structure CTRNGResponse where
  service : String
  src : String
  data : String
  signature : Option CTRNGSignature
  timestamp : Option String
  provider : Option String
deriving DecidableEq, Repr

/-- A `block` value after `sanitizeCTRNGRequest`: the sentinel or a
validated non-negative integer. -/
inductive SanBlock where
  | inf
  | num (n : Nat)
deriving DecidableEq, Repr

/-- A sanitized block as passed on to `getBeaconWithBlockTraversal`. -/
def SanBlock.toBlockParam : SanBlock → BlockParam
  | .inf => .inf
  | .num n => .num n

/-- The output of `sanitizeCTRNGRequest`: either an `APICTRNGRequest`
(`{ src }`) or an `IPFSCTRNGRequest` (`{ src: "ipfs", beaconPath?, block,
index }`; `block` and `index` are always set by the sanitizer, and `index`
is a validated non-negative integer). -/
inductive CTRNGRequest where
  | api (src : String)
  | ipfs (beaconPath : Option String) (block : SanBlock) (index : Nat)
deriving DecidableEq, Repr

/-- The value-selection block of `CTRNGService._getFromIPFSBeacon`, written
once in the source for the comparison branch and repeated verbatim for the
single-beacon branch:

```
const ctrngArray = selectedBeaconData.ctrng;
if (!ctrngArray || ctrngArray.length === 0)
  throw new OrbitportSDKError("No cTRNG values found in beacon data",
                              ERROR_CODES.INVALID_RESPONSE);
const requestedIndex = ipfsRequest.index ?? 0;
const actualIndex = requestedIndex % ctrngArray.length;
const ctrngValue = ctrngArray[actualIndex];
return { service: "ipfs-beacon", src: "ipfs", data: ctrngValue.toString(),
         timestamp: selectedBeaconData.timestamp, provider: "ipfs-beacon" };
```

`requestedIndex` arrives as a `Nat` (the sanitizer guarantees a
non-negative integer, defaulting to `0`), so the JS `%` is `Nat.mod`;
`actualIndex` is then in bounds, making the `getD` default irrelevant. -/
def selectCtrngValue (requestedIndex : Nat) (selectedBeaconData : BeaconData) :
    Except JSException CTRNGResponse :=
  let ctrngArray := selectedBeaconData.ctrng
  if ctrngArray.length = 0 then
    .error (.sdk
      { message := "No cTRNG values found in beacon data"
        code := ErrorCode.INVALID_RESPONSE })
  else
    let actualIndex := requestedIndex % ctrngArray.length
    .ok { service := "ipfs-beacon", src := "ipfs"
          data := toString (ctrngArray.getD actualIndex 0)
          signature := none
          timestamp := some selectedBeaconData.timestamp
          provider := some "ipfs-beacon" }

/-- The result handling of `CTRNGService._getFromIPFSBeacon` once the
beacon service returned (`ipfsResult.data`): the `"match" in ipfsResult.data`
test distinguishes a comparison record from a single record.

Comparison branch:

```
const beaconData = ipfsResult.data.gateway || ipfsResult.data.api;
if (!beaconData) throw ...INVALID_RESPONSE...;
let selectedBeaconData = beaconData;
if (!ipfsResult.data.match && ipfsResult.data.gateway && ipfsResult.data.api) {
  if (gatewaySeq > apiSeq) selectedBeaconData = gateway;
  else if (apiSeq > gatewaySeq) selectedBeaconData = api;
}
... value selection ...
```
-/
def selectRandomValue (requestedIndex : Nat) (out : BeaconOut) :
    Except JSException CTRNGResponse :=
  match out with
  | .comparison c =>
    match c.gateway <|> c.api with
    | none =>
      .error (.sdk
        { message := "No valid beacon data found from any source"
          code := ErrorCode.INVALID_RESPONSE })
    | some beaconData =>
      let selectedBeaconData :=
        match c.match_, c.gateway, c.api with
        | false, some g, some a =>
          if g.sequence > a.sequence then g
          else if a.sequence > g.sequence then a
          else beaconData
        | _, _, _ => beaconData
      selectCtrngValue requestedIndex selectedBeaconData
  | .single b => selectCtrngValue requestedIndex b

/-- `CTRNGService._getFromIPFSBeacon(request, options)`.

```
if (request.src !== "ipfs") throw ...INVALID_REQUEST...;
const beaconPath = ipfsRequest.beaconPath || this.config.ipfs?.defaultBeaconPath;
if (!beaconPath) throw ...INVALID_REQUEST...;
const ipfsResult = await this.beaconService.getBeaconWithBlockTraversal(
  { path: beaconPath, sources: ["both"], enableComparison: true,
    timeout: options.timeout, block: ipfsRequest.block }, options);
... selectRandomValue ...
```

`resolve` abstracts `this.beaconService.getBeacon` by path (always invoked
with `sources: ["both"]`, `enableComparison: true` here); the returned `Nat`
counts resolver calls. -/
def getFromIPFSBeacon (defaultBeaconPath : Option String)
    (request : CTRNGRequest)
    (resolve : String → Except JSException BeaconOut) :
    Except JSException CTRNGResponse × Nat :=
  match request with
  | .api _ =>
    (.error (.sdk
      { message := "Invalid request type for IPFS beacon"
        code := ErrorCode.INVALID_REQUEST }), 0)
  | .ipfs bp blk idx =>
    let beaconPath := if jsTruthyStr bp then bp else defaultBeaconPath
    if ¬ jsTruthyStr beaconPath then
      (.error (.sdk
        { message := "No beacon path provided and no default beacon path configured"
          code := ErrorCode.INVALID_REQUEST }), 0)
    else
      match getBeaconWithBlockTraversal (some blk.toBlockParam)
          (beaconPath.getD "") resolve with
      | (.error e, n) => (.error e, n)
      | (.ok out, n) =>
        match selectRandomValue idx out with
        | .ok resp => (.ok resp, n)
        | .error e => (.error e, n)

/-! ## Request validation and sanitization (`src/utils/validation.ts`) -/

/-- A `Partial<CTRNGRequest>` as accepted by `random()`: every field
optional; `src` is an arbitrary string (callers outside TypeScript can pass
anything), `block` is `number | "INF"`, `index` any number.  A field whose
JS value is `undefined` is identified with an absent field (the code
distinguishes the two only via the `in` checks of `validateCTRNGRequest`,
where both fail validation identically for the claims at hand). -/
structure CTRNGRequestInput where
  src : Option String := none
  beaconPath : Option String := none
  block : Option BlockParam := none
  index : Option Rat := none
deriving DecidableEq, Repr

/-- The `ValidationResult` interface. -/
structure ValidationResult where
  valid : Bool
  errors : List String
deriving DecidableEq, Repr

/-- `validateCTRNGRequest(request)` from `src/utils/validation.ts`:

```
if (request.src && !["trng", "rng", "ipfs"].includes(request.src))
  errors.push("src must be one of: trng, rng, ipfs");
if (request.src === "ipfs") {
  if (ipfsRequest.beaconPath) { if (not a string starting with /ipns/ or /ipfs/) errors.push(...); }
  if (ipfsRequest.index !== undefined) { if (not a non-negative integer) errors.push(...); }
  if (ipfsRequest.block !== undefined) { if (not "INF" and not a non-negative integer) errors.push(...); }
} else {
  if ("beaconPath" in request || "index" in request || "block" in request) errors.push(...);
}
return { valid: errors.length === 0, errors };
```

`Rat.isInt` models `Number.isInteger`. -/
def validateCTRNGRequest (request : CTRNGRequestInput) : ValidationResult :=
  let srcErrors : List String :=
    if jsTruthyStr request.src &&
        !(["trng", "rng", "ipfs"].contains (request.src.getD "")) then
      ["src must be one of: trng, rng, ipfs"]
    else []
  let branchErrors : List String :=
    if request.src = some "ipfs" then
      (if jsTruthyStr request.beaconPath &&
          !(jsStartsWith (request.beaconPath.getD "") "/ipns/" ||
            jsStartsWith (request.beaconPath.getD "") "/ipfs/") then
        ["beaconPath must be a valid IPFS/IPNS path starting with /ipns/ or /ipfs/"]
      else []) ++
      (match request.index with
       | some q =>
         if q.isInt ∧ 0 ≤ q then [] else ["index must be a non-negative integer"]
       | none => []) ++
      (match request.block with
       | some .inf => []
       | some (.num q) =>
         if q.isInt ∧ 0 ≤ q then []
         else ["block must be 'INF' or a non-negative integer"]
       | none => [])
    else
      if request.beaconPath.isSome || request.index.isSome || request.block.isSome then
        ["IPFS-specific parameters (beaconPath, index, block) can only be used with src: 'ipfs'"]
      else []
  let errors := srcErrors ++ branchErrors
  { valid := errors.isEmpty, errors := errors }

/-- `sanitizeCTRNGRequest(request)`:

```
const validation = validateCTRNGRequest(request);
if (!validation.valid)
  throw createValidationError(validation.errors.join(", "), validation.errors);
if (request.src === "ipfs")
  return { src: "ipfs", beaconPath: ipfsRequest.beaconPath,
           block: ipfsRequest.block || "INF", index: ipfsRequest.index || 0 };
else return { src: request.src || "trng" };
```

`block || "INF"` is a JS truthiness default: the validated number `0` is
falsy and becomes `"INF"`.  `index || 0` maps the validated `0` to `0`, so
it is the identity on the validated value (embedded via `Int.toNat` on the
integral, non-negative rational). -/
def sanitizeCTRNGRequest (request : CTRNGRequestInput) :
    Except JSException CTRNGRequest :=
  let validation := validateCTRNGRequest request
  if ¬ validation.valid then
    .error (.sdk
      { message := String.intercalate ", " validation.errors
        code := ErrorCode.VALIDATION_ERROR })
  else if request.src = some "ipfs" then
    .ok (.ipfs request.beaconPath
      (match request.block with
       | some .inf => SanBlock.inf
       | some (.num q) => if q = 0 then SanBlock.inf else SanBlock.num q.num.toNat
       | none => SanBlock.inf)
      (match request.index with
       | some q => q.num.toNat
       | none => 0))
  else
    .ok (.api (if jsTruthyStr request.src then request.src.getD "" else "trng"))

/-- `CTRNGService.random(request, options)` (the source router).

`hasCredentials` is `this.config.clientId && this.config.clientSecret`;
`apiResult` abstracts one `this._getFromAPI(...)` attempt (token fetch, API
call and response validation folded into its outcome); `resolve` abstracts
`this.beaconService.getBeacon` by path as in `getFromIPFSBeacon`.  The
`ServiceResult` metadata wrapper is dropped; the returned `Nat` counts
beacon-resolver calls.

```
let sanitizedRequest = sanitizeCTRNGRequest(request);
if (!this.config.clientId || !this.config.clientSecret)
  if (sanitizedRequest.src !== "ipfs")
    sanitizedRequest = { src: "ipfs", block: "INF", index: 0 };
if (sanitizedRequest.src === "ipfs")
  return await this._getFromIPFSBeacon(sanitizedRequest, requestOptions);
else if (sanitizedRequest.src === "trng" || sanitizedRequest.src === "rng") {
  if (this.config.clientId && this.config.clientSecret) {
    try { return await this._getFromAPI(sanitizedRequest, requestOptions); }
    catch (apiError) {
      return await this._getFromIPFSBeacon({ src: "ipfs", block: "INF", index: 0 },
                                           requestOptions);
    }
  } else return await this._getFromIPFSBeacon({ src: "ipfs", block: "INF", index: 0 },
                                              requestOptions);
} else throw new OrbitportSDKError("Invalid request type", ERROR_CODES.INVALID_REQUEST);
```
-/
def random (hasCredentials : Bool) (defaultBeaconPath : Option String)
    (request : CTRNGRequestInput)
    (apiResult : Except JSException CTRNGResponse)
    (resolve : String → Except JSException BeaconOut) :
    Except JSException CTRNGResponse × Nat :=
  match sanitizeCTRNGRequest request with
  | .error e => (.error e, 0)
  | .ok sanitized0 =>
    let sanitizedRequest :=
      if !hasCredentials &&
          (match sanitized0 with | .api _ => true | .ipfs _ _ _ => false) then
        CTRNGRequest.ipfs none SanBlock.inf 0
      else sanitized0
    match sanitizedRequest with
    | .ipfs bp blk idx =>
      getFromIPFSBeacon defaultBeaconPath (.ipfs bp blk idx) resolve
    | .api src =>
      if src = "trng" ∨ src = "rng" then
        if hasCredentials then
          match apiResult with
          | .ok r => (.ok r, 0)
          | .error _ =>
            getFromIPFSBeacon defaultBeaconPath
              (.ipfs none SanBlock.inf 0) resolve
        else
          getFromIPFSBeacon defaultBeaconPath
            (.ipfs none SanBlock.inf 0) resolve
      else
        (.error (.sdk
          { message := "Invalid request type"
            code := ErrorCode.INVALID_REQUEST }), 0)

/-! ## Statement-side definitions and concrete fixtures -/

/-- The response the spec's modulo-selection rule predicts for a record `b`
and requested index `i`: the value `b.ctrng[i mod |b.ctrng|]` rendered as a
string, tagged with the `ipfs-beacon` service labels. -/
def ipfsCtrngResponse (b : BeaconData) (i : Nat) : CTRNGResponse :=
  { service := "ipfs-beacon", src := "ipfs"
    data := toString (b.ctrng.getD (i % b.ctrng.length) 0)
    signature := none
    timestamp := some b.timestamp
    provider := some "ipfs-beacon" }

/-- The duration (time until response headers) of a network outcome. -/
def HTTPOutcome.duration : HTTPOutcome → Nat
  | .success d _ => d
  | .httpError d _ => d
  | .failure d _ => d

/-- Fixture: a beacon record with the given sequence and batch. -/
def testBeacon (seq : Int) (ctrng : List Int) : BeaconData :=
  { previous := none, sequence := seq
    timestamp := "2024-01-01T00:00:00.000Z", ctrng := ctrng }

/-- Fixture: a resolver oracle answering every path with the latest record
of sequence `2` and batch `[123]`. -/
def resolveSeq2 : String → Except JSException BeaconOut :=
  fun _ => .ok (.single (testBeacon 2 [123]))

/-- Fixture: a resolver oracle answering every path with the latest record
of sequence `1` and batch `[7]`. -/
def resolveSeq1 : String → Except JSException BeaconOut :=
  fun _ => .ok (.single (testBeacon 1 [7]))

/-- Fixture: a parse oracle on which every body fails to parse. -/
def parseFailAll : String → Except String BeaconData :=
  fun _ => .error "Unexpected beacon JSON structure"

/-- Fixture: a transport oracle on which every source is offline. -/
def fetchOffline : Nat → String → IPFSSource :=
  fun _ s => { source := s, text := none, error := some "offline" }

/-- Fixture: a `JSON.parse` oracle under which the body named
`"beacon-body-empty-data"` parses to a JSON object whose `data` member is
an empty object (the document `"data": empty-object` in JSON syntax);
`parseBeacon` treats the body text opaquely, passing it to `jsonParse`
unchanged, so the body is represented here by an opaque name. -/
def jsonParseDataEmpty : String → Option Json :=
  fun s =>
    if s = "beacon-body-empty-data" then some (.obj [("data", .obj [])])
    else none

/-- Fixture: a `JSON.parse` oracle under which the body named
`"beacon-body-ctrng-string"` parses to a JSON object whose `data` member
holds `sequence` 1, `timestamp` 2 and a `ctrng` member that is the string
`"x"` rather than an array. -/
def jsonParseCtrngNotArr : String → Option Json :=
  fun s =>
    if s = "beacon-body-ctrng-string" then
      some (.obj [("data",
        .obj [("sequence", .num 1), ("timestamp", .num 2), ("ctrng", .str "x")])])
    else none

/-- Fixture: a `toISOString` oracle. -/
def toISOFixed : Int → String := fun _ => "1970-01-01T00:00:02.000Z"

/-! ## Helper lemmas -/

/-- A list with a member failing the filter predicate filters to a strictly
shorter list. -/
theorem length_filter_lt_of_mem_not_pred {α : Type} (p : α → Bool)
    (l : List α) (x : α) (hx : x ∈ l) (hpx : p x = false) :
    (l.filter p).length < l.length := by
  induction l with
  | nil => cases hx
  | cons y ys ih =>
    rcases List.mem_cons.mp hx with rfl | hmem
    · simp only [List.filter_cons, hpx, Bool.false_eq_true, if_false,
        List.length_cons]
      exact Nat.lt_succ_of_le (List.length_filter_le p ys)
    · by_cases hy : p y = true
      · simpa [List.filter_cons, hy] using Nat.succ_lt_succ (ih hmem)
      · simp only [List.filter_cons, Bool.not_eq_true] at hy ⊢
        rw [hy]
        simp only [Bool.false_eq_true, if_false, List.length_cons]
        exact Nat.lt_succ_of_lt (ih hmem)

/-- The traversal loop never decreases the running resolver-call count. -/
theorem traversalLoop_count_ge (resolve : String → Except JSException BeaconOut)
    (block maxTraversal : Rat) (fuel : Nat) (tb : BeaconData)
    (traversed count : Nat) :
    count ≤ (traversalLoop resolve block maxTraversal fuel tb traversed count).2 := by
  induction fuel generalizing tb traversed count with
  | zero =>
    by_cases h : tb.sequence = block <;> simp [traversalLoop, h]
  | succ n ih =>
    rw [traversalLoop]
    by_cases hg : (traversed : Rat) < maxTraversal ∧ jsTruthyStr tb.previous = true
    · rw [if_pos hg]
      cases hres : resolve (tb.previous.getD "") with
      | error e => simp [hres]
      | ok prev =>
        simp only [hres]
        cases hext : extractBeacon prev with
        | none => simp [hext]
        | some pb =>
          simp only [hext]
          by_cases h1 : (pb.sequence : Rat) = block
          · simp [h1]
          · by_cases h2 : (pb.sequence : Rat) < block
            · simp [h1, h2]
            · simp only [h1, h2, if_false]
              exact le_trans (Nat.le_succ count) (ih pb (traversed + 1) (count + 1))
    · rw [if_neg hg]
      by_cases h : (tb.sequence : Rat) = block <;> simp [h]

/-! ## Claim theorems -/

/-- C6: the comparator returns `match` (agrees) true iff both records are
present with equal `sequence` and equal `previous`; when not both are
present, `match` is false and `differences` is omitted; when both are
present but disagree, `differences` is present and carries the sequence
pair exactly when the sequences differ and the previous pair exactly when
the previous fields differ. -/
theorem compareBeaconData_agreement_spec (g a : Option BeaconData) :
    ((compareBeaconData g a).match_ = true ↔
      ∃ gb ab, g = some gb ∧ a = some ab ∧
        gb.sequence = ab.sequence ∧ gb.previous = ab.previous) ∧
    ((g = none ∨ a = none) →
      (compareBeaconData g a).match_ = false ∧
      (compareBeaconData g a).differences = none) ∧
    (∀ gb ab, g = some gb → a = some ab →
      (compareBeaconData g a).match_ = false →
      ∃ d, (compareBeaconData g a).differences = some d ∧
        (d.sequence = some (gb.sequence, ab.sequence) ↔ gb.sequence ≠ ab.sequence) ∧
        (d.sequence = none ↔ gb.sequence = ab.sequence) ∧
        (d.previous = some (gb.previous.getD "", ab.previous.getD "") ↔
          gb.previous ≠ ab.previous) ∧
        (d.previous = none ↔ gb.previous = ab.previous)) := by
  cases g with
  | none =>
    refine ⟨by simp [compareBeaconData], by simp [compareBeaconData], ?_⟩
    intro gb ab hg
    exact absurd hg (by simp)
  | some gb0 =>
    cases a with
    | none =>
      refine ⟨by simp [compareBeaconData], by simp [compareBeaconData], ?_⟩
      intro gb ab _ ha
      exact absurd ha (by simp)
    | some ab0 =>
      refine ⟨?_, by simp, ?_⟩
      · by_cases hs : gb0.sequence = ab0.sequence <;>
          by_cases hp : gb0.previous = ab0.previous <;>
          simp [compareBeaconData, hs, hp]
      · intro gb ab hg ha hm
        obtain rfl : gb0 = gb := by injection hg
        obtain rfl : ab0 = ab := by injection ha
        by_cases hs : gb0.sequence = ab0.sequence <;>
          by_cases hp : gb0.previous = ab0.previous <;>
          simp [compareBeaconData, hs, hp] at hm ⊢

/-- C6 witness: two records differing only in `sequence` (1 vs 2) do not
agree, and the divergence carries the sequence pair but no previous pair. -/
theorem compareBeaconData_agreement_spec_witness :
    (compareBeaconData (some (testBeacon 1 [1])) (some (testBeacon 2 [1]))).match_ = false ∧
    ∃ d, (compareBeaconData (some (testBeacon 1 [1]))
            (some (testBeacon 2 [1]))).differences = some d ∧
      d.sequence = some (1, 2) ∧ d.previous = none := by
  have h := compareBeaconData_agreement_spec
    (some (testBeacon 1 [1])) (some (testBeacon 2 [1]))
  have hm : (compareBeaconData (some (testBeacon 1 [1]))
      (some (testBeacon 2 [1]))).match_ = false := by decide
  obtain ⟨d, hd, hseq, _, _, hprevNone⟩ :=
    h.2.2 (testBeacon 1 [1]) (testBeacon 2 [1]) rfl rfl hm
  exact ⟨hm, d, hd, hseq.mpr (by decide), hprevNone.mpr (by decide)⟩

/-- C1: for every non-negative integer requested index `i` and every
selected beacon record whose `ctrng` array is non-empty, the random-value
selector returns the element at `i mod length` rendered as a string — both
for a single-record resolver result and for an agreeing comparison result —
and in particular `i = length` wraps around to the first element, so an
out-of-range index never causes a failure. -/
theorem selectRandomValue_modulo_spec (i : Nat) (b : BeaconData)
    (h : b.ctrng ≠ []) :
    selectRandomValue i (.single b) = .ok (ipfsCtrngResponse b i) ∧
    (∀ c : BeaconComparison, c.gateway = some b → c.match_ = true →
      selectRandomValue i (.comparison c) = .ok (ipfsCtrngResponse b i)) ∧
    selectRandomValue b.ctrng.length (.single b) = .ok (ipfsCtrngResponse b 0) := by
  have hlen : b.ctrng.length ≠ 0 := fun hc => h (List.length_eq_zero.mp hc)
  refine ⟨?_, ?_, ?_⟩
  · simp [selectRandomValue, selectCtrngValue, hlen, ipfsCtrngResponse]
  · intro c hg hm
    obtain ⟨cg, ca, cm, cd⟩ := c
    simp only at hg hm
    subst hg hm
    simp [selectRandomValue, selectCtrngValue, Option.orElse, hlen,
      ipfsCtrngResponse]
  · simp [selectRandomValue, selectCtrngValue, hlen, ipfsCtrngResponse,
      Nat.mod_self]

/-- C1 witness: index 5 into the batch `[10, 20, 30]` selects `30`
(5 mod 3 = 2), and index 3 (= the length) wraps to `10`. -/
theorem selectRandomValue_modulo_spec_witness :
    selectRandomValue 5 (.single (testBeacon 1 [10, 20, 30])) =
      .ok (ipfsCtrngResponse (testBeacon 1 [10, 20, 30]) 5) ∧
    selectRandomValue 3 (.single (testBeacon 1 [10, 20, 30])) =
      .ok (ipfsCtrngResponse (testBeacon 1 [10, 20, 30]) 0) ∧
    (ipfsCtrngResponse (testBeacon 1 [10, 20, 30]) 5).data = "30" := by
  have h := selectRandomValue_modulo_spec 5 (testBeacon 1 [10, 20, 30]) (by decide)
  have h3 := selectRandomValue_modulo_spec 3 (testBeacon 1 [10, 20, 30]) (by decide)
  exact ⟨h.1, by simpa using h3.2.2, by decide⟩

/-- C2: when a comparison result has both records present but disagreeing,
the selector uses the record with the strictly greater `sequence`; when the
sequences are equal despite the disagreement, the gateway record is used. -/
theorem selectRandomValue_divergence_spec (i : Nat) (c : BeaconComparison)
    (g a : BeaconData) (hg : c.gateway = some g) (ha : c.api = some a)
    (hm : c.match_ = false) :
    (a.sequence > g.sequence → a.ctrng ≠ [] →
      selectRandomValue i (.comparison c) = .ok (ipfsCtrngResponse a i)) ∧
    (g.sequence > a.sequence → g.ctrng ≠ [] →
      selectRandomValue i (.comparison c) = .ok (ipfsCtrngResponse g i)) ∧
    (g.sequence = a.sequence → g.ctrng ≠ [] →
      selectRandomValue i (.comparison c) = .ok (ipfsCtrngResponse g i)) := by
  obtain ⟨cg, ca, cm, cd⟩ := c
  simp only at hg ha hm
  subst hg ha hm
  refine ⟨?_, ?_, ?_⟩
  · intro hlt hne
    have hlen : a.ctrng.length ≠ 0 := fun hc => hne (List.length_eq_zero.mp hc)
    have h1 : ¬ g.sequence > a.sequence := not_lt_of_gt hlt
    simp [selectRandomValue, selectCtrngValue, Option.orElse, h1, hlt, hlen,
      ipfsCtrngResponse]
  · intro hlt hne
    have hlen : g.ctrng.length ≠ 0 := fun hc => hne (List.length_eq_zero.mp hc)
    simp [selectRandomValue, selectCtrngValue, Option.orElse, hlt, hlen,
      ipfsCtrngResponse]
  · intro heq hne
    have hlen : g.ctrng.length ≠ 0 := fun hc => hne (List.length_eq_zero.mp hc)
    have h1 : ¬ g.sequence > a.sequence := by omega
    have h2 : ¬ a.sequence > g.sequence := by omega
    simp [selectRandomValue, selectCtrngValue, Option.orElse, h1, h2, hlen,
      ipfsCtrngResponse]

/-- C2 witness: gateway sequence 10 vs api sequence 11, disagreeing — the
api record's batch `[777]` is selected; with equal sequences 10/10 the
gateway batch `[555]` is selected. -/
theorem selectRandomValue_divergence_spec_witness :
    selectRandomValue 0 (.comparison
      { gateway := some (testBeacon 10 [555]), api := some (testBeacon 11 [777])
        match_ := false, differences := none }) =
      .ok (ipfsCtrngResponse (testBeacon 11 [777]) 0) ∧
    selectRandomValue 0 (.comparison
      { gateway := some (testBeacon 10 [555]), api := some (testBeacon 10 [777])
        match_ := false, differences := none }) =
      .ok (ipfsCtrngResponse (testBeacon 10 [555]) 0) ∧
    (ipfsCtrngResponse (testBeacon 11 [777]) 0).data = "777" := by
  have h1 := selectRandomValue_divergence_spec 0
    { gateway := some (testBeacon 10 [555]), api := some (testBeacon 11 [777])
      match_ := false, differences := none }
    (testBeacon 10 [555]) (testBeacon 11 [777]) rfl rfl rfl
  have h2 := selectRandomValue_divergence_spec 0
    { gateway := some (testBeacon 10 [555]), api := some (testBeacon 10 [777])
      match_ := false, differences := none }
    (testBeacon 10 [555]) (testBeacon 10 [777]) rfl rfl rfl
  exact ⟨h1.1 (by decide) (by decide), h2.2.2 (by decide) (by decide), by decide⟩

/-- C3: with API credentials configured and a non-beacon source kind
(`trng` or `rng`, with no IPFS-only fields) requested, a failing
centralized-API attempt makes `random()` fall back to the whole beacon
pipeline with `block = "INF"` (latest) and `index = 0`, returning exactly
that pipeline's result — in particular a successful `RandomSelection`
whenever the beacon pipeline succeeds. -/
theorem random_api_failure_beacon_fallback (request : CTRNGRequestInput)
    (e : JSException) (defaultBeaconPath : Option String)
    (resolve : String → Except JSException BeaconOut)
    (hsrc : request.src = some "trng" ∨ request.src = some "rng")
    (hbp : request.beaconPath = none) (hblk : request.block = none)
    (hidx : request.index = none) :
    random true defaultBeaconPath request (.error e) resolve =
      getFromIPFSBeacon defaultBeaconPath
        (.ipfs none SanBlock.inf 0) resolve ∧
    (∀ r, (getFromIPFSBeacon defaultBeaconPath
        (.ipfs none SanBlock.inf 0) resolve).1 = .ok r →
      (random true defaultBeaconPath request (.error e) resolve).1 = .ok r) := by
  obtain ⟨src, bp, blk, idx⟩ := request
  simp only at hsrc hbp hblk hidx
  subst hbp hblk hidx
  have hmain : random true defaultBeaconPath
      { src := src, beaconPath := none, block := none, index := none }
      (.error e) resolve =
      getFromIPFSBeacon defaultBeaconPath (.ipfs none SanBlock.inf 0) resolve := by
    rcases hsrc with rfl | rfl <;> rfl
  exact ⟨hmain, fun r hr => by rw [hmain]; exact hr⟩

/-- C3 witness: a concrete `trng` request with credentials, a rejecting API
attempt and a beacon answering `ctrng = [123]` yields the beacon-derived
successful selection with `data = "123"` and `service = "ipfs-beacon"`. -/
theorem random_api_failure_beacon_fallback_witness :
    random true (some "/ipns/beacon") { src := some "trng" }
        (.error (.sdk { message := "API down", code := ErrorCode.NETWORK_ERROR }))
        resolveSeq2 =
      getFromIPFSBeacon (some "/ipns/beacon") (.ipfs none SanBlock.inf 0)
        resolveSeq2 ∧
    (random true (some "/ipns/beacon") { src := some "trng" }
        (.error (.sdk { message := "API down", code := ErrorCode.NETWORK_ERROR }))
        resolveSeq2).1 =
      .ok { service := "ipfs-beacon", src := "ipfs", data := "123"
            signature := none, timestamp := some "2024-01-01T00:00:00.000Z"
            provider := some "ipfs-beacon" } := by
  have h := random_api_failure_beacon_fallback { src := some "trng" }
    (.sdk { message := "API down", code := ErrorCode.NETWORK_ERROR })
    (some "/ipns/beacon") resolveSeq2 (Or.inl rfl) rfl rfl rfl
  exact ⟨h.1, h.2 _ rfl⟩

/-- C10: a `random()` request with `src = "ipfs"` and `block = 0` passes
validation (0 is a non-negative integer) but is sanitized with the JS
truthiness default `block || "INF"`, so the sanitized request carries the
latest-sentinel; `random()` therefore runs the beacon pipeline with
`block = "INF"`, and with the sentinel the traversal engine delegates to a
single resolver call (no traversal hops), making historical block 0
unreachable through `random()`. -/
theorem random_block_zero_latest_spec (request : CTRNGRequestInput)
    (hsrc : request.src = some "ipfs")
    (hblk : request.block = some (.num 0))
    (hvalid : (validateCTRNGRequest request).valid = true) :
    sanitizeCTRNGRequest request = .ok (.ipfs request.beaconPath SanBlock.inf
      (match request.index with | some q => q.num.toNat | none => 0)) ∧
    (∀ hasCredentials defaultBeaconPath apiResult resolve,
      random hasCredentials defaultBeaconPath request apiResult resolve =
        getFromIPFSBeacon defaultBeaconPath
          (.ipfs request.beaconPath SanBlock.inf
            (match request.index with | some q => q.num.toNat | none => 0))
          resolve) ∧
    (validateCTRNGRequest { src := some "ipfs", block := some (.num 0) }).valid
      = true ∧
    (∀ path resolve,
      getBeaconWithBlockTraversal (some BlockParam.inf) path resolve =
        (match resolve path with
         | .ok latest => (.ok latest, 1)
         | .error e => (.error e, 1))) := by
  have hsan : sanitizeCTRNGRequest request = .ok (.ipfs request.beaconPath
      SanBlock.inf
      (match request.index with | some q => q.num.toNat | none => 0)) := by
    simp [sanitizeCTRNGRequest, hvalid, hsrc, hblk]
  refine ⟨hsan, ?_, by decide, fun path resolve => rfl⟩
  intro hasCredentials defaultBeaconPath apiResult resolve
  unfold random
  rw [hsan]
  cases hasCredentials <;> rfl

/-- C10 witness: the concrete request `{ src: "ipfs", block: 0 }` is valid,
sanitizes to the latest-sentinel, and the pipeline for it performs exactly
one resolver call. -/
theorem random_block_zero_latest_spec_witness :
    sanitizeCTRNGRequest { src := some "ipfs", block := some (.num 0) } =
      .ok (.ipfs none SanBlock.inf 0) ∧
    random false none { src := some "ipfs", block := some (.num 0) }
        (.error (.typeError "unused")) resolveSeq2 =
      getFromIPFSBeacon none (.ipfs none SanBlock.inf 0) resolveSeq2 ∧
    getBeaconWithBlockTraversal (some BlockParam.inf) "/ipns/x" resolveSeq2 =
      (.ok (.single (testBeacon 2 [123])), 1) := by
  have h := random_block_zero_latest_spec
    { src := some "ipfs", block := some (.num 0) } rfl rfl (by decide)
  refine ⟨?_, h.2.1 false none (.error (.typeError "unused")) resolveSeq2, ?_⟩
  · simpa using h.1
  · rw [h.2.2.2 "/ipns/x" resolveSeq2]
    rfl

/-- C4: in one resolver attempt over the requested source set, (a) if every
requested source's retrieval failed (it reported a non-empty error
message), the attempt fails with a `NETWORK_ERROR` whose message joins the
per-source error messages; (b) if at least one retrieval succeeded (no
error, a body present) but no retrieved body parses as a beacon, the
attempt fails with an `INVALID_RESPONSE`. -/
theorem getBeaconAttempt_failure_policy
    (parse : String → Except String BeaconData) (enableComparison : Bool)
    (sources_data : List IPFSSource) :
    ((∀ s ∈ sources_data, ∃ e, s.error = some e ∧ e ≠ "") →
      getBeaconAttempt parse enableComparison sources_data = .error
        { message := "All sources failed: " ++ String.intercalate ", "
            (sources_data.map (fun s => s.error.getD ""))
          code := ErrorCode.NETWORK_ERROR }) ∧
    ((∃ s ∈ sources_data, s.error = none ∧ s.text.isSome) →
      (∀ s ∈ sources_data, ∀ t, s.text = some t → ∃ m, parse t = .error m) →
      getBeaconAttempt parse enableComparison sources_data = .error
        { message := "No valid beacon data found from any source"
          code := ErrorCode.INVALID_RESPONSE }) := by
  constructor
  · intro hall
    have hfilter : sources_data.filter (fun s => jsTruthyStr s.error) =
        sources_data := by
      rw [List.filter_eq_self]
      intro s hs
      obtain ⟨e, he, hne⟩ := hall s hs
      simp [jsTruthyStr, he, hne]
    unfold getBeaconAttempt
    rw [hfilter, if_pos rfl]
  · intro ⟨s0, hs0, herr0, htext0⟩ hparse
    have hlt : (sources_data.filter (fun s => jsTruthyStr s.error)).length <
        sources_data.length := by
      refine length_filter_lt_of_mem_not_pred _ _ s0 hs0 ?_
      simp [jsTruthyStr, herr0]
    have hempty : sources_data.filterMap (fun s =>
        if jsTruthyStr s.text then
          match parse (s.text.getD "") with
          | .ok d => some (s.source, d)
          | .error _ => none
        else none) = ([] : List (String × BeaconData)) := by
      rw [List.filterMap_eq_nil_iff]
      intro s hs
      by_cases ht : jsTruthyStr s.text = true
      · cases hst : s.text with
        | none => simp [jsTruthyStr]
        | some t =>
          obtain ⟨m, hm⟩ := hparse s hs t hst
          simp [ht, hst, hm]
      · simp [ht]
    unfold getBeaconAttempt
    rw [if_neg (Nat.ne_of_lt hlt)]
    simp only [hempty]

/-- C4 witness: both sources offline yields the joined network error; one
offline source plus one unparsable body yields the invalid-response
error. -/
theorem getBeaconAttempt_failure_policy_witness :
    getBeaconAttempt parseFailAll true
      [{ source := "gateway:g", text := none, error := some "boom" },
       { source := "api:a", text := none, error := some "bam" }] = .error
      { message := "All sources failed: boom, bam"
        code := ErrorCode.NETWORK_ERROR } ∧
    getBeaconAttempt parseFailAll true
      [{ source := "gateway:g", text := some "not json", error := none },
       { source := "api:a", text := none, error := some "bam" }] = .error
      { message := "No valid beacon data found from any source"
        code := ErrorCode.INVALID_RESPONSE } := by
  constructor
  · have h := (getBeaconAttempt_failure_policy parseFailAll true
      [{ source := "gateway:g", text := none, error := some "boom" },
       { source := "api:a", text := none, error := some "bam" }]).1
    refine Eq.trans (h ?_) rfl
    intro s hs
    rcases List.mem_cons.mp hs with rfl | hs
    · exact ⟨"boom", rfl, by decide⟩
    rcases List.mem_cons.mp hs with rfl | hs
    · exact ⟨"bam", rfl, by decide⟩
    · cases hs
  · have h := (getBeaconAttempt_failure_policy parseFailAll true
      [{ source := "gateway:g", text := some "not json", error := none },
       { source := "api:a", text := none, error := some "bam" }]).2
    refine h ⟨_, List.mem_cons_self _ _, rfl, rfl⟩ ?_
    intro s _ t _
    exact ⟨"Unexpected beacon JSON structure", rfl⟩

/-- C5 counterexample: for the prefix-less path `"QmBadPath"` the resolver
throws before any fetch, but the error's code is `INVALID_RESPONSE`, not the
invalid-request code the claim names. -/
theorem getBeacon_invalid_path_code_counterexample :
    (getBeacon parseFailAll "QmBadPath" ["both"] true 3 fetchOffline).1 =
      .error (.sdk
        { message := "Invalid path: must start with /ipns/ or /ipfs/"
          code := ErrorCode.INVALID_RESPONSE }) ∧
    ErrorCode.INVALID_RESPONSE ≠ ErrorCode.INVALID_REQUEST := by
  exact ⟨rfl, by decide⟩

/-- C5 (amended): for every path that does not begin with `/ipns/` or
`/ipfs/`, `getBeacon` fails before issuing any network call (zero fetch
invocations, for every transport oracle), with an `OrbitportSDKError`
carrying the code `INVALID_RESPONSE` (the source labels this pre-I/O path
check invalid-response, not invalid-request). -/
theorem getBeacon_invalid_path_no_io
    (parse : String → Except String BeaconData) (path : String)
    (sources : List String) (enableComparison : Bool) (retries : Nat)
    (fetchOutcome : Nat → String → IPFSSource)
    (h : ¬ (jsStartsWith path "/ipns/" = true ∨ jsStartsWith path "/ipfs/" = true)) :
    getBeacon parse path sources enableComparison retries fetchOutcome =
      (.error (.sdk
        { message := "Invalid path: must start with /ipns/ or /ipfs/"
          code := ErrorCode.INVALID_RESPONSE }), 0) := by
  have hvalid : isValidPath path = false := by
    push_neg at h
    simp [isValidPath, h.1, h.2]
  unfold getBeacon
  rw [hvalid]
  simp

/-- C5 witness: the amended statement applied to the concrete path
`"beacon.json"` with concrete oracles. -/
theorem getBeacon_invalid_path_no_io_witness :
    getBeacon parseFailAll "beacon.json" ["gateway"] false 3 fetchOffline =
      (.error (.sdk
        { message := "Invalid path: must start with /ipns/ or /ipfs/"
          code := ErrorCode.INVALID_RESPONSE }), 0) :=
  getBeacon_invalid_path_no_io parseFailAll "beacon.json" ["gateway"] false 3
    fetchOffline (by decide)

/-- C7 counterexample: a body parsing to an object whose `data` member is
an empty object contains no `sequence`, no
`timestamp` and no array field inside `data`, yet `parseBeacon` succeeds
(with JS-`undefined` fields and an empty batch) instead of failing as the
claim requires. -/
theorem parseBeacon_missing_fields_counterexample :
    parseBeacon jsonParseDataEmpty toISOFixed "beacon-body-empty-data" =
      .ok { previous := none, sequence := none, timestamp := "undefined"
            ctrng := [] } := by
  rfl

/-- C7 (amended): `parseBeacon` fails exactly when the input is not JSON or
the parsed body is not an object (or array) whose `data` member is an
object (or array); the presence of `sequence`, `timestamp` or an array
field inside `data` is not checked, and an absent or non-array `ctrng`
member does not fail but defaults to an empty batch. -/
theorem parseBeacon_structural_spec (jsonParse : String → Option Json)
    (toISO : Int → String) (s : String) :
    (jsonParse s = none → ∃ m, parseBeacon jsonParse toISO s = .error m) ∧
    (∀ j, jsonParse s = some j →
      ((∃ m, parseBeacon jsonParse toISO s = .error m) ↔
        ¬ (j.isObjectLike = true ∧
           ∃ d, j.get "data" = some d ∧ d.isObjectLike = true))) ∧
    (∀ j d, jsonParse s = some j → j.get "data" = some d →
      d.isObjectLike = true →
      (∀ es, d.get "ctrng" ≠ some (.arr es)) →
      j.isObjectLike = true →
      ∃ pb, parseBeacon jsonParse toISO s = .ok pb ∧ pb.ctrng = []) := by
  refine ⟨?_, ?_, ?_⟩
  · intro h
    exact ⟨_, by unfold parseBeacon; rw [h]⟩
  · intro j hj
    unfold parseBeacon
    rw [hj]
    cases hd : j.get "data" with
    | none =>
      simp only [hd]
      constructor
      · intro _
        rintro ⟨_, d, hdd, _⟩
        exact Option.noConfusion hdd
      · intro _
        exact ⟨"Unexpected beacon JSON structure", by simp⟩
    | some d =>
      by_cases hobj : j.isObjectLike = true <;>
        by_cases hdobj : d.isObjectLike = true <;>
        simp [hd, hobj, hdobj]
  · intro j d hj hd hdobj hctrng hobj
    unfold parseBeacon
    rw [hj]
    simp only [hd, hobj, hdobj, Bool.and_self, if_true]
    refine ⟨_, rfl, ?_⟩
    cases hc : d.get "ctrng" with
    | none => simp [hd, hc]
    | some c =>
      cases c with
      | arr es => exact absurd hc (hctrng es)
      | null => simp [hd, hc]
      | bool b => simp [hd, hc]
      | num n => simp [hd, hc]
      | str t => simp [hd, hc]
      | obj fs => simp [hd, hc]

/-- C7 witness: a body whose `data.ctrng` is the string `"x"` (not an
array) parses successfully with an empty batch. -/
theorem parseBeacon_structural_spec_witness :
    ∃ pb, parseBeacon jsonParseCtrngNotArr toISOFixed
      "beacon-body-ctrng-string" = .ok pb ∧
      pb.ctrng = [] := by
  refine (parseBeacon_structural_spec jsonParseCtrngNotArr toISOFixed
    "beacon-body-ctrng-string").2.2
    (.obj [("data",
      .obj [("sequence", .num 1), ("timestamp", .num 2), ("ctrng", .str "x")])])
    (.obj [("sequence", .num 1), ("timestamp", .num 2), ("ctrng", .str "x")])
    rfl rfl rfl ?_ rfl
  intro es h
  have hv : List.lookup "ctrng"
      [("sequence", Json.num 1), ("timestamp", Json.num 2),
       ("ctrng", Json.str "x")] = some (Json.str "x") := rfl
  rw [Json.get, hv] at h
  simp at h

/-- C8 counterexample: the non-integer numeric target `3/2` does not fail
before I/O — the traversal engine proceeds to resolution, issues a resolver
call (count 1), and fails only afterwards with the post-resolution
greater-than-current error (the latest record has sequence 1), not the
pre-I/O guard error. -/
theorem traversal_noninteger_block_counterexample :
    (mkRat 3 2).isInt = false ∧
    getBeaconWithBlockTraversal (some (.num (mkRat 3 2))) "/ipns/x"
        resolveSeq1 =
      (.error (.sdk
        { message := "Requested block " ++ toString (mkRat 3 2) ++
            " is greater than current block 1"
          code := ErrorCode.INVALID_REQUEST }), 1) := by
  exact ⟨by decide, rfl⟩

/-- C8 (amended): the chain-traversal engine fails with an invalid-request
condition before any I/O (zero resolver calls) exactly for negative numeric
targets; the latest-sentinel and every non-negative numeric target —
integer or not, since integrality is not checked at this layer — proceed to
resolution (at least one resolver call is issued). -/
theorem getBeaconWithBlockTraversal_guard_spec (q : Rat) (path : String)
    (resolve : String → Except JSException BeaconOut) :
    (q < 0 →
      getBeaconWithBlockTraversal (some (.num q)) path resolve =
        (.error (.sdk
          { message := "Block number must be a non-negative integer"
            code := ErrorCode.INVALID_REQUEST }), 0)) ∧
    (0 ≤ q →
      1 ≤ (getBeaconWithBlockTraversal (some (.num q)) path resolve).2) ∧
    (getBeaconWithBlockTraversal (some BlockParam.inf) path resolve).2 = 1 := by
  refine ⟨?_, ?_, ?_⟩
  · intro hneg
    unfold getBeaconWithBlockTraversal
    simp [hneg]
  · intro hpos
    have hneg : ¬ q < 0 := not_lt.mpr hpos
    unfold getBeaconWithBlockTraversal
    simp only [Option.getD_some]
    rw [if_neg hneg]
    cases hres : resolve path with
    | error e => simp [hres]
    | ok latest =>
      simp only [hres]
      cases hext : extractBeacon latest with
      | none => simp [hext]
      | some cur =>
        simp only [hext]
        by_cases h1 : q > (cur.sequence : Rat)
        · rw [if_pos h1]
        · rw [if_neg h1]
          by_cases h2 : q = (cur.sequence : Rat)
          · rw [if_pos h2]
          · rw [if_neg h2]
            have hc := traversalLoop_count_ge resolve q
              ((cur.sequence : Rat) - q) ((cur.sequence : Rat) - q).ceil.toNat
              cur 0 1
            cases hloop : traversalLoop resolve q ((cur.sequence : Rat) - q)
                ((cur.sequence : Rat) - q).ceil.toNat cur 0 1 with
            | mk r n =>
              rw [hloop] at hc
              cases r with
              | error e => simpa using hc
              | ok tb => cases latest <;> simpa using hc
  · unfold getBeaconWithBlockTraversal
    cases hres : resolve path <;> simp [hres]

/-- C8 witness: the amended statement at the concrete negative target `-1`
(pre-I/O invalid-request failure, zero resolver calls) and at the sentinel
(one resolver call). -/
theorem getBeaconWithBlockTraversal_guard_spec_witness :
    getBeaconWithBlockTraversal (some (.num (-1))) "/ipns/x" resolveSeq2 =
      (.error (.sdk
        { message := "Block number must be a non-negative integer"
          code := ErrorCode.INVALID_REQUEST }), 0) ∧
    (getBeaconWithBlockTraversal (some BlockParam.inf) "/ipns/x"
      resolveSeq2).2 = 1 := by
  have h := getBeaconWithBlockTraversal_guard_spec (-1) "/ipns/x" resolveSeq2
  exact ⟨h.1 (by norm_num), h.2.2⟩

/-- C9 counterexample: an api-side content fetch taking 999999999 ms under a
30000 ms `timeoutMs` is not aborted and is not reported as a timeout — it
succeeds, because `readViaApi` never wires its `_timeout` parameter to the
fetches it issues. -/
theorem readViaApi_ignores_timeout_counterexample :
    (999999999 > 30000) = True ∧
    readViaApi (some "http://api") 30000 "/ipfs/x" (.success 1 none)
        (.success 999999999 "BODY") =
      { source := "api:http://api", text := some "BODY", error := none } := by
  exact ⟨by decide, rfl⟩

/-- C9 (amended): only the gateway fetch is bound to the timeout — a
gateway call whose response takes longer than `timeoutMs` is aborted and
reported as an abort error inside that source's own `IPFSSource` result
(never thrown); the api-side calls ignore `timeoutMs` entirely, so
`readViaApi` is invariant under changes of the timeout, and each call's
outcome is captured in its own result only. -/
theorem transportFetcher_timeout_spec :
    (∀ (gateway : String) (t : Nat) (outcome : HTTPOutcome),
      outcome.duration > t →
      readViaGateway gateway t outcome =
        { source := "gateway:" ++ gateway, text := none
          error := some abortErrorMessage }) ∧
    (∀ (apiUrl : Option String) (t t' : Nat) (path : String)
      (r : ResolveOutcome) (c : HTTPOutcome),
      readViaApi apiUrl t path r c = readViaApi apiUrl t' path r c) := by
  constructor
  · intro gateway t outcome h
    cases outcome with
    | success d body => simp [readViaGateway, HTTPOutcome.duration] at h ⊢; simp [h]
    | httpError d status => simp [readViaGateway, HTTPOutcome.duration] at h ⊢; simp [h]
    | failure d message => simp [readViaGateway, HTTPOutcome.duration] at h ⊢; simp [h]
  · intro apiUrl t t' path r c
    rfl

/-- C9 witness: the gateway abort at a concrete over-timeout duration, and
the api-side timeout-invariance at two concrete timeouts. -/
theorem transportFetcher_timeout_spec_witness :
    readViaGateway "https://ipfs.io" 100 (.success 200 "BODY") =
      { source := "gateway:https://ipfs.io", text := none
        error := some abortErrorMessage } ∧
    readViaApi (some "http://api") 5 "/ipfs/x" (.success 1 none)
        (.success 9 "B") =
      readViaApi (some "http://api") 7 "/ipfs/x" (.success 1 none)
        (.success 9 "B") := by
  exact ⟨transportFetcher_timeout_spec.1 "https://ipfs.io" 100
    (.success 200 "BODY") (by decide),
    transportFetcher_timeout_spec.2 (some "http://api") 5 7 "/ipfs/x"
      (.success 1 none) (.success 9 "B")⟩
